import Mathlib

/-
Verification of the weekend-raytracer rendering core (src/raytracer.cpp).

The C++ code is shallowly embedded over an arbitrary linear ordered field α
(instantiated at ℚ for executable checks and at ℝ where genuine square-root
semantics are needed).  The libm `sqrt` primitive is modelled as an explicit
function parameter `sq : α → α`; theorems that depend on the semantics of
square roots instantiate it with `Real.sqrt`, concrete evaluations use
`ratSqrt` (exact on perfect squares).  Float literals of the source
(1e-6, 1e-3, 1e-4, 0.1, 0.299, …) are carried over as exact rationals.
-/

set_option linter.unusedSectionVars false
set_option linter.unusedVariables false
set_option maxRecDepth 16000

namespace Raytracer

variable {α : Type} [LinearOrderedField α]

/-- 3D vector of raytracer.cpp `struct Vec3` (fields x, y, z). -/
structure Vec3 (α : Type) where
  x : α
  y : α
  z : α
deriving DecidableEq

/-- RGB color of raytracer.cpp `struct Color` (fields r, g, b). -/
structure Color (α : Type) where
  r : α
  g : α
  b : α
deriving DecidableEq

instance : Add (Vec3 α) := ⟨fun a c => ⟨a.x + c.x, a.y + c.y, a.z + c.z⟩⟩
instance : Sub (Vec3 α) := ⟨fun a c => ⟨a.x - c.x, a.y - c.y, a.z - c.z⟩⟩
instance : Neg (Vec3 α) := ⟨fun a => ⟨-a.x, -a.y, -a.z⟩⟩

/-- `Vec3::operator*(float)` : componentwise scaling. -/
instance : HMul (Vec3 α) α (Vec3 α) := ⟨fun a s => ⟨a.x * s, a.y * s, a.z * s⟩⟩

/-- `Vec3::length2` : squared Euclidean length. -/
def Vec3.length2 (v : Vec3 α) : α := v.x * v.x + v.y * v.y + v.z * v.z

/-- `Vec3::length` : `sqrt(length2())`; the libm sqrt is the parameter `sq`. -/
def Vec3.length (sq : α → α) (v : Vec3 α) : α := sq v.length2

/-- `Vec3::normalize` : returns the vector unchanged when its length is zero,
otherwise scales by the reciprocal length. -/
def Vec3.normalize (sq : α → α) (v : Vec3 α) : Vec3 α :=
  if v.length sq = 0 then v else v * (1 / v.length sq)

/-- `Vec3::dot`. -/
def Vec3.dot (a c : Vec3 α) : α := a.x * c.x + a.y * c.y + a.z * c.z

/-- `Vec3::cross`. -/
def Vec3.cross (a c : Vec3 α) : Vec3 α :=
  ⟨a.y * c.z - a.z * c.y, a.z * c.x - a.x * c.z, a.x * c.y - a.y * c.x⟩

/-- `Vec3::reflect` : `*this - normal * 2.0 * normal.dot(*this)`. -/
def Vec3.reflect (v normal : Vec3 α) : Vec3 α :=
  v - (normal * (2 : α)) * (normal.dot v)

instance : Zero (Color α) := ⟨⟨0, 0, 0⟩⟩
instance : Add (Color α) := ⟨fun a c => ⟨a.r + c.r, a.g + c.g, a.b + c.b⟩⟩
instance : Sub (Color α) := ⟨fun a c => ⟨a.r - c.r, a.g - c.g, a.b - c.b⟩⟩
instance : Mul (Color α) := ⟨fun a c => ⟨a.r * c.r, a.g * c.g, a.b * c.b⟩⟩
instance : Div (Color α) := ⟨fun a c => ⟨a.r / c.r, a.g / c.g, a.b / c.b⟩⟩

/-- `Color::operator*(float)` : componentwise scaling. -/
instance : HMul (Color α) α (Color α) := ⟨fun a s => ⟨a.r * s, a.g * s, a.b * s⟩⟩

/-- `Color::brightness` : `0.299*r + 0.587*g + 0.114*b`. -/
def Color.brightness (c : Color α) : α :=
  299 / 1000 * c.r + 587 / 1000 * c.g + 114 / 1000 * c.b

theorem Vec3.ext_xyz {a c : Vec3 α} : a = c ↔ a.x = c.x ∧ a.y = c.y ∧ a.z = c.z := by
  cases a; cases c; simp [Vec3.mk.injEq]

theorem Color.ext_rgb {a c : Color α} : a = c ↔ a.r = c.r ∧ a.g = c.g ∧ a.b = c.b := by
  cases a; cases c; simp [Color.mk.injEq]

@[simp] theorem Vec3.add_x (a c : Vec3 α) : (a + c).x = a.x + c.x := rfl
@[simp] theorem Vec3.add_y (a c : Vec3 α) : (a + c).y = a.y + c.y := rfl
@[simp] theorem Vec3.add_z (a c : Vec3 α) : (a + c).z = a.z + c.z := rfl
@[simp] theorem Vec3.sub_x (a c : Vec3 α) : (a - c).x = a.x - c.x := rfl
@[simp] theorem Vec3.sub_y (a c : Vec3 α) : (a - c).y = a.y - c.y := rfl
@[simp] theorem Vec3.sub_z (a c : Vec3 α) : (a - c).z = a.z - c.z := rfl
@[simp] theorem Vec3.smul_x (a : Vec3 α) (s : α) : (a * s).x = a.x * s := rfl
@[simp] theorem Vec3.smul_y (a : Vec3 α) (s : α) : (a * s).y = a.y * s := rfl
@[simp] theorem Vec3.smul_z (a : Vec3 α) (s : α) : (a * s).z = a.z * s := rfl

@[simp] theorem Color.add_r (a c : Color α) : (a + c).r = a.r + c.r := rfl
@[simp] theorem Color.add_g (a c : Color α) : (a + c).g = a.g + c.g := rfl
@[simp] theorem Color.add_b (a c : Color α) : (a + c).b = a.b + c.b := rfl
@[simp] theorem Color.mul_r (a c : Color α) : (a * c).r = a.r * c.r := rfl
@[simp] theorem Color.mul_g (a c : Color α) : (a * c).g = a.g * c.g := rfl
@[simp] theorem Color.mul_b (a c : Color α) : (a * c).b = a.b * c.b := rfl
@[simp] theorem Color.zero_r : (0 : Color α).r = 0 := rfl
@[simp] theorem Color.zero_g : (0 : Color α).g = 0 := rfl
@[simp] theorem Color.zero_b : (0 : Color α).b = 0 := rfl

instance : AddCommMonoid (Color α) where
  add := (· + ·)
  zero := 0
  add_assoc := by
    intro a c e
    rw [Color.ext_rgb]
    refine ⟨?_, ?_, ?_⟩ <;> simp <;> ring
  zero_add := by
    intro a
    rw [Color.ext_rgb]
    refine ⟨?_, ?_, ?_⟩ <;> simp
  add_zero := by
    intro a
    rw [Color.ext_rgb]
    refine ⟨?_, ?_, ?_⟩ <;> simp
  add_comm := by
    intro a c
    rw [Color.ext_rgb]
    refine ⟨?_, ?_, ?_⟩ <;> simp <;> ring
  nsmul := nsmulRec

/-- `struct Material` : albedo color plus reflectivity scalar. -/
structure Material (α : Type) where
  albedo : Color α
  reflectivity : α
deriving DecidableEq

/-- `struct PointLight`. -/
structure PointLight (α : Type) where
  position : Vec3 α
  power : α
  color : Color α
deriving DecidableEq

/-- `struct Intersection` : distance, hit position, surface normal and the hit
material (the C++ `Material const *` is modelled by the material value). -/
structure Intersection (α : Type) where
  distance : α
  position : Vec3 α
  normal : Vec3 α
  material : Material α
deriving DecidableEq

/-- `struct Plane` : material, origin point and stored normal. -/
structure Plane (α : Type) where
  material : Material α
  origin : Vec3 α
  normal : Vec3 α
deriving DecidableEq

/-- `struct Sphere` : material, center and radius. -/
structure Sphere (α : Type) where
  material : Material α
  center : Vec3 α
  radius : α
deriving DecidableEq

/-- `Plane::intersect` (raytracer.cpp:256-273), translated line by line:
`denom = -normal.dot(ray_direction)`; a hit is produced only when
`denom > 1e-6` and `t = -p0l0.dot(normal) / denom` is non-negative. -/
def Plane.intersect (p : Plane α) (ray_origin ray_direction : Vec3 α) :
    Option (Intersection α) :=
  let denom := -(p.normal.dot ray_direction)
  if denom > 1 / 1000000 then
    let p0l0 := p.origin - ray_origin
    let t := -(p0l0.dot p.normal) / denom
    if t ≥ 0 then
      some ⟨t, ray_origin + ray_direction * t, p.normal, p.material⟩
    else none
  else none

/-- `Sphere::intersect` (raytracer.cpp:283-314), translated line by line;
the `std::swap(t0, t1)` is rendered by the two conditional lets. -/
def Sphere.intersect (sq : α → α) (s : Sphere α) (ray_origin ray_direction : Vec3 α) :
    Option (Intersection α) :=
  let radius2 := s.radius * s.radius
  let L := s.center - ray_origin
  let tca := L.dot ray_direction
  let d2 := L.dot L - tca * tca
  if d2 > radius2 then none
  else
    let thc := sq (radius2 - d2)
    let t0 := tca - thc
    let t1 := tca + thc
    let t0s := if t0 > t1 then t1 else t0
    let t1s := if t0 > t1 then t0 else t1
    if t0s < 0 then
      if t1s < 0 then none
      else
        some ⟨t1s, ray_origin + ray_direction * t1s,
          (ray_origin + ray_direction * t1s - s.center).normalize sq, s.material⟩
    else
      some ⟨t0s, ray_origin + ray_direction * t0s,
        (ray_origin + ray_direction * t0s - s.center).normalize sq, s.material⟩

/-- `using Object = std::variant<Plane, Sphere>`. -/
inductive Object (α : Type) where
  | plane (p : Plane α)
  | sphere (s : Sphere α)
deriving DecidableEq

/-- The `std::visit` dispatch inside `Scene::intersect`. -/
def Object.intersect (sq : α → α) (obj : Object α) (ray_origin ray_direction : Vec3 α) :
    Option (Intersection α) :=
  match obj with
  | .plane p => p.intersect ray_origin ray_direction
  | .sphere s => s.intersect sq ray_origin ray_direction

/-- The material carried by a shape variant. -/
def Object.material : Object α → Material α
  | .plane p => p.material
  | .sphere s => s.material

/-- `struct Scene` : shape list and light list. -/
structure Scene (α : Type) where
  objects : List (Object α)
  lights : List (PointLight α)
deriving DecidableEq

/-- `std::numeric_limits<float>::max()`, the sentinel distance used by
`Scene::intersect`; FLT_MAX = (2 - 2^-23)·2^127 = 2^128 - 2^104 exactly. -/
def fltMax : α := 2 ^ 128 - 2 ^ 104

/-- The default-constructed `Intersection final_hit` of `Scene::intersect`
(raytracer.cpp:327-328): distance set to FLT_MAX, vectors zero-initialized by
`Vec3()`; the indeterminate material pointer is modelled by a fixed dummy
material (it is provably never returned). -/
def defaultHit : Intersection α := ⟨fltMax, ⟨0, 0, 0⟩, ⟨0, 0, 0⟩, ⟨⟨0, 0, 0⟩, 0⟩⟩

/-- `Scene::intersect` (raytracer.cpp:325-347): linear scan over the shapes,
keeping the hit with strictly smaller distance than the current best; a result
is reported only when the final distance differs from the FLT_MAX sentinel. -/
def Scene.intersect (sq : α → α) (s : Scene α) (ray_origin ray_direction : Vec3 α) :
    Option (Intersection α) :=
  let final_hit := s.objects.foldl
    (fun final_hit obj =>
      match Object.intersect sq obj ray_origin ray_direction with
      | some hit => if hit.distance < final_hit.distance then hit else final_hit
      | none => final_hit)
    defaultHit
  if final_hit.distance ≠ fltMax then some final_hit else none

/-- The list of hits the shapes of the scene report for a ray, in scene order
(the `obj.intersect(...)` results collected by the loop of raytracer.cpp:330-340). -/
def Scene.hits (sq : α → α) (s : Scene α) (ray_origin ray_direction : Vec3 α) :
    List (Intersection α) :=
  s.objects.filterMap (fun obj => Object.intersect sq obj ray_origin ray_direction)

/-- The body of the scan of `Scene::intersect` (raytracer.cpp:335-339): keep
the new hit exactly when its distance is strictly smaller than the current
best's. -/
def selectNearer (final_hit hit : Intersection α) : Intersection α :=
  if hit.distance < final_hit.distance then hit else final_hit

/-- Stand-in for the libm `sqrt` at ℚ used for concrete evaluations; exact on
perfect squares, which is all the concrete inputs below require. -/
def ratSqrt (q : ℚ) : ℚ := (Int.sqrt q.num : ℚ) / (Nat.sqrt q.den : ℚ)

/-- The lighting loop of `Scene::trace` (raytracer.cpp:363-380): the
accumulator starts at the ambient `Color lighting { 0.1 }`; for each light the
shadow ray is cast from the light position toward the hit, the light is
skipped (`continue`) when the nearest hit along that ray is closer than
`distance_to_light - 1e-3`, and otherwise `light.color * (power / distance)`
is accumulated. -/
def Scene.lighting (sq : α → α) (s : Scene α) (position : Vec3 α) : Color α :=
  s.lights.foldl
    (fun (lighting : Color α) light =>
      let light_delta := position - light.position
      let distance_to_light := light_delta.length sq
      let attenuated : Color α := light.color * (light.power / distance_to_light)
      match s.intersect sq light.position (light_delta.normalize sq) with
      | some hit =>
        if hit.distance < distance_to_light - 1 / 1000 then lighting
        else lighting + attenuated
      | none => lighting + attenuated)
    ⟨1 / 10, 1 / 10, 1 / 10⟩

/-- `Scene::max_recursion = 10`. -/
def Scene.max_recursion : Nat := 10

/-- The albedo part of `Scene::trace` (raytracer.cpp:358-382), factored out of
the recursion: the surface albedo is multiplied by the lighting accumulator
only when its brightness is positive (`if(surface_albedo.brightness() > 0.0)`). -/
def Scene.shadedAlbedo (sq : α → α) (s : Scene α) (intersection : Intersection α) :
    Color α :=
  if intersection.material.albedo.brightness > 0 then
    intersection.material.albedo * s.lighting sq intersection.position
  else intersection.material.albedo

/-- `Scene::trace` (raytracer.cpp:349-400), with the albedo computation
factored into `Scene.shadedAlbedo` and the recursion made structural on the
`recursion` budget: at budget 0 the reflection guard is skipped and the
reflection contribution is the initial `Color surface_reflection { 0.0 }`;
at positive budget, if the material's reflectivity is positive the reflected
ray is traced with the budget decreased by one, a recursive miss contributing
black. -/
def Scene.trace (sq : α → α) (s : Scene α) (ray_origin ray_direction : Vec3 α) :
    Nat → Option (Color α)
  | 0 =>
    match s.intersect sq ray_origin ray_direction with
    | none => none
    | some intersection =>
      some (s.shadedAlbedo sq intersection + (0 : Color α))
  | n + 1 =>
    match s.intersect sq ray_origin ray_direction with
    | none => none
    | some intersection =>
      let surface_reflection :=
        if intersection.material.reflectivity > 0 then
          let refl_dir := ray_direction.reflect intersection.normal
          let refl_origin := intersection.position + refl_dir * ((1 : α) / 10000)
          match Scene.trace sq s refl_origin refl_dir n with
          | some hit => hit
          | none => (0 : Color α)
        else (0 : Color α)
      some (s.shadedAlbedo sq intersection + surface_reflection)

/-- Instrumented copy of `Scene.trace` that additionally counts the nesting
depth of the call tree: the second component is 1 for the current invocation
plus the depth of the recursive invocation when one is made. -/
def Scene.traceD (sq : α → α) (s : Scene α) (ray_origin ray_direction : Vec3 α) :
    Nat → Option (Color α) × Nat
  | 0 =>
    match s.intersect sq ray_origin ray_direction with
    | none => (none, 1)
    | some intersection =>
      (some (s.shadedAlbedo sq intersection + (0 : Color α)), 1 + 0)
  | n + 1 =>
    match s.intersect sq ray_origin ray_direction with
    | none => (none, 1)
    | some intersection =>
      let sub : Color α × Nat :=
        if intersection.material.reflectivity > 0 then
          let refl_dir := ray_direction.reflect intersection.normal
          let refl_origin := intersection.position + refl_dir * ((1 : α) / 10000)
          let rec_result := Scene.traceD sq s refl_origin refl_dir n
          (rec_result.1.getD 0, rec_result.2)
        else ((0 : Color α), 0)
      (some (s.shadedAlbedo sq intersection + sub.1), 1 + sub.2)

/-- Variant of `Scene.trace` following the words of the spec sentence behind
claim C8: the albedo is multiplied by the lighting accumulator
unconditionally, without the brightness test. -/
def Scene.traceAlwaysLight (sq : α → α) (s : Scene α) (ray_origin ray_direction : Vec3 α) :
    Nat → Option (Color α)
  | 0 =>
    match s.intersect sq ray_origin ray_direction with
    | none => none
    | some intersection =>
      some (intersection.material.albedo * s.lighting sq intersection.position
        + (0 : Color α))
  | n + 1 =>
    match s.intersect sq ray_origin ray_direction with
    | none => none
    | some intersection =>
      let surface_reflection :=
        if intersection.material.reflectivity > 0 then
          let refl_dir := ray_direction.reflect intersection.normal
          let refl_origin := intersection.position + refl_dir * ((1 : α) / 10000)
          match Scene.traceAlwaysLight sq s refl_origin refl_dir n with
          | some hit => hit
          | none => (0 : Color α)
        else (0 : Color α)
      some (intersection.material.albedo * s.lighting sq intersection.position
        + surface_reflection)

/-- The plane intersection formula exactly as the words of claim C6 state it:
`denom = -normal·direction`, no hit when `denom ≤ 1e-6`, otherwise
`t = (origin_to_plane)·normal / denom` with `origin_to_plane` the vector from
the ray origin to the plane's origin, and a hit exactly when `t ≥ 0`.  This
definition follows the claim, not the source; compare `Plane.intersect`. -/
def Plane.intersectClaimC6 (p : Plane α) (ray_origin ray_direction : Vec3 α) :
    Option (Intersection α) :=
  let denom := -(p.normal.dot ray_direction)
  if denom ≤ 1 / 1000000 then none
  else
    let origin_to_plane := p.origin - ray_origin
    let t := origin_to_plane.dot p.normal / denom
    if t ≥ 0 then
      some ⟨t, ray_origin + ray_direction * t, p.normal, p.material⟩
    else none

/-- Whether the shadow test of the lighting loop rejects the light: the
nearest hit along the ray from the light toward `position` is strictly closer
than `distance_to_light - 1e-3`. -/
def Scene.lightOccluded (sq : α → α) (s : Scene α) (position : Vec3 α)
    (light : PointLight α) : Bool :=
  match s.intersect sq light.position ((position - light.position).normalize sq) with
  | some hit =>
    decide (hit.distance < (position - light.position).length sq - 1 / 1000)
  | none => false

/-- The contribution a single light adds to the lighting accumulator: zero
when occluded, `light.color * (power / distance)` otherwise. -/
def Scene.lightTerm (sq : α → α) (s : Scene α) (position : Vec3 α)
    (light : PointLight α) : Color α :=
  if s.lightOccluded sq position light then 0
  else light.color * (light.power / ((position - light.position).length sq))

/-- `struct Image` : dimensions plus the dense pixel buffer. -/
structure Image (α : Type) where
  width : Nat
  height : Nat
  pixels : List (Color α)
deriving DecidableEq

/-- `Image::save` (raytracer.cpp:184-204).  File-system effects are abstracted
into parameters: `openOk` is whether `fopen` succeeds, `writeResults` the
outcomes of the `fprintf`/`fwrite` calls — which the code never inspects.  The
method is `const`: it only reads the pixel buffer, so the image is threaded
through unchanged as the second component. -/
def Image.save (img : Image α) (openOk : Bool) (writeResults : List Bool) :
    Bool × Image α :=
  if openOk = false then (false, img)
  else (true, img)

/-- The tail of `main` (raytracer.cpp:486-487): `target.save("output.pgm");`
followed by `return 0;` — the Boolean result of `Image::save` is discarded and
the exit status is 0 unconditionally.  `saveResult` stands for the value the
`save` call returned at runtime. -/
def mainExitCode (saveResult : Bool) : Int :=
  let _ := saveResult
  0

/-! Concrete fixtures over ℚ (and ℝ) used by counterexamples and witnesses. -/

/-- A plain white diffuse material. -/
def mWhite : Material ℚ := ⟨⟨1, 1, 1⟩, 0⟩

/-- A plane at z = 5 facing the -z direction, white material. -/
def planeZ5 : Plane ℚ := ⟨mWhite, ⟨0, 0, 5⟩, ⟨0, 0, -1⟩⟩

/-- A two-plane scene: a pure-black mirror plane of reflectivity `ρ` at z = 10
facing -z, and a red diffuse plane at z = -5 facing +z; no lights.  A ray from
the origin along +z hits the mirror and the reflected ray hits the red plane. -/
def mirrorScene (ρ : ℚ) : Scene ℚ :=
  ⟨[.plane ⟨⟨⟨0, 0, 0⟩, ρ⟩, ⟨0, 0, 10⟩, ⟨0, 0, -1⟩⟩,
    .plane ⟨⟨⟨1, 0, 0⟩, 0⟩, ⟨0, 0, -5⟩, ⟨0, 0, 1⟩⟩], []⟩

/-- The intersection the mirror scene reports for the ray from the origin
along +z when the mirror's reflectivity is 1/2. -/
def mirrorHit : Intersection ℚ := ⟨10, ⟨0, 0, 10⟩, ⟨0, 0, -1⟩, ⟨⟨0, 0, 0⟩, 1 / 2⟩⟩

/-- A single plane whose ray-z distance is exactly the FLT_MAX sentinel. -/
def sentinelScene : Scene ℚ := ⟨[.plane ⟨mWhite, ⟨0, 0, fltMax⟩, ⟨0, 0, -1⟩⟩], []⟩

/-- Two parallel planes at z = 5 and z = 7, both facing -z; no lights. -/
def twoPlaneScene : Scene ℚ :=
  ⟨[.plane ⟨mWhite, ⟨0, 0, 5⟩, ⟨0, 0, -1⟩⟩,
    .plane ⟨mWhite, ⟨0, 0, 7⟩, ⟨0, 0, -1⟩⟩], []⟩

/-- The nearer of the two hits `twoPlaneScene` reports for the +z ray from the
origin. -/
def nearHit : Intersection ℚ := ⟨5, ⟨0, 0, 5⟩, ⟨0, 0, -1⟩, mWhite⟩

/-- Scene of one white plane at z = 5 facing -z, no lights (the occluder). -/
def occluderScene : Scene ℚ := ⟨[.plane ⟨mWhite, ⟨0, 0, 5⟩, ⟨0, 0, -1⟩⟩], []⟩

/-- A light at the origin; the plane of `occluderScene` stands between it and
the shaded point ⟨0,0,10⟩. -/
def blockedLight : PointLight ℚ := ⟨⟨0, 0, 0⟩, 10, ⟨1, 1, 1⟩⟩

/-- `occluderScene` with `blockedLight` installed. -/
def occludedScene : Scene ℚ := ⟨occluderScene.objects, [blockedLight]⟩

/-- A scene whose sole material has non-negative albedo channels. -/
def nonnegScene : Scene ℚ :=
  ⟨[.plane ⟨⟨⟨1, 0, 0⟩, 0⟩, ⟨0, 0, 5⟩, ⟨0, 0, -1⟩⟩], []⟩

/-- A scene whose sole material has a negative albedo channel with
non-positive brightness: albedo (0, 0, -1). -/
def negAlbedoScene : Scene ℚ :=
  ⟨[.plane ⟨⟨⟨0, 0, -1⟩, 0⟩, ⟨0, 0, 5⟩, ⟨0, 0, -1⟩⟩], []⟩

/-- A white material over ℝ. -/
def mWhiteR : Material ℝ := ⟨⟨1, 1, 1⟩, 0⟩

/-- A unit sphere at (0,0,5) over ℝ. -/
def unitSphereR : Sphere ℝ := ⟨mWhiteR, ⟨0, 0, 5⟩, 1⟩

/-- Well-formedness of a shape, as the data-model section of the spec assumes
it: a plane carries a unit stored normal, a sphere a positive radius. -/
def Object.WellFormed : Object α → Prop
  | .plane p => p.normal.length2 = 1
  | .sphere s => 0 < s.radius

/-- The invariants claim C9 asserts of an intersection returned for the ray
`(o, d)`: unit-length normal, non-negative distance, and position on the ray
at parameter `distance`. -/
def Intersection.Good (o d : Vec3 ℝ) (i : Intersection ℝ) : Prop :=
  i.normal.length Real.sqrt = 1 ∧ 0 ≤ i.distance ∧ i.position = o + d * i.distance

/-! Theorems. -/

theorem ite_gt_right (a b : α) : (if a > b then b else a) = min a b := by
  rcases le_or_lt a b with h | h
  · rw [if_neg (not_lt.mpr h), min_eq_left h]
  · rw [if_pos h, min_eq_right h.le]

theorem ite_gt_left (a b : α) : (if a > b then a else b) = max a b := by
  rcases le_or_lt a b with h | h
  · rw [if_neg (not_lt.mpr h), max_eq_right h]
  · rw [if_pos h, max_eq_left h.le]

/-- C2: the failing-input evaluation: when `Image::save` reports failure
(`saveResult = false`), `main` still exits with status 0, not the non-zero
status the claim requires. -/
theorem c2_main_exit_zero_on_save_failure : mainExitCode false = 0 := rfl

/-- C10: `Image.save` returns false exactly when opening fails (the first
component equals `openOk` whatever the write outcomes are), and the image —
pixel buffer and dimensions — is returned unchanged. -/
theorem c10_save_result_and_frame (img : Image α) (openOk : Bool)
    (writeResults : List Bool) :
    (Image.save img openOk writeResults).1 = openOk ∧
    (Image.save img openOk writeResults).2 = img := by
  cases openOk <;> simp [Image.save]

theorem sphere_intersect_root_select (sq : α → α) (s : Sphere α) (o d : Vec3 α) :
    Sphere.intersect sq s o d =
      (let radius2 := s.radius * s.radius
       let L := s.center - o
       let tca := L.dot d
       let d2 := L.dot L - tca * tca
       if d2 > radius2 then none
       else
         let thc := sq (radius2 - d2)
         let t0 := min (tca - thc) (tca + thc)
         let t1 := max (tca - thc) (tca + thc)
         if 0 ≤ t0 then
           some ⟨t0, o + d * t0, (o + d * t0 - s.center).normalize sq, s.material⟩
         else if 0 ≤ t1 then
           some ⟨t1, o + d * t1, (o + d * t1 - s.center).normalize sq, s.material⟩
         else none) := by
  rw [Sphere.intersect]
  dsimp only
  rw [ite_gt_right, ite_gt_left]
  by_cases hd2 : (s.center - o).dot (s.center - o) -
      (s.center - o).dot d * ((s.center - o).dot d) > s.radius * s.radius
  · rw [if_pos hd2, if_pos hd2]
  · rw [if_neg hd2, if_neg hd2]
    set a := (s.center - o).dot d - sq (s.radius * s.radius -
      ((s.center - o).dot (s.center - o) - (s.center - o).dot d * ((s.center - o).dot d)))
    set c := (s.center - o).dot d + sq (s.radius * s.radius -
      ((s.center - o).dot (s.center - o) - (s.center - o).dot d * ((s.center - o).dot d)))
    rcases lt_or_le (min a c) 0 with hmin | hmin
    · rw [if_pos hmin, if_neg (not_le.mpr hmin)]
      rcases lt_or_le (max a c) 0 with hmax | hmax
      · rw [if_pos hmax, if_neg (not_le.mpr hmax)]
      · rw [if_neg (not_lt.mpr hmax), if_pos hmax]
    · rw [if_neg (not_lt.mpr hmin), if_pos hmin]

/-- C5: `Sphere::intersect` reports no hit when the squared closest-approach
distance exceeds the squared radius; otherwise, with roots t0 ≤ t1 obtained
from `thc = sqrt(radius² - d2)`, it reports distance t0 when t0 ≥ 0, else t1
when t1 ≥ 0, else no hit, and the returned normal is
`normalize(hit_position - center)`. -/
theorem c5_sphere_root_policy (sq : α → α) (s : Sphere α) (o d : Vec3 α) :
    Sphere.intersect sq s o d =
      (let radius2 := s.radius * s.radius
       let L := s.center - o
       let tca := L.dot d
       let d2 := L.dot L - tca * tca
       if d2 > radius2 then none
       else
         let thc := sq (radius2 - d2)
         let t0 := min (tca - thc) (tca + thc)
         let t1 := max (tca - thc) (tca + thc)
         if 0 ≤ t0 then
           some ⟨t0, o + d * t0, (o + d * t0 - s.center).normalize sq, s.material⟩
         else if 0 ≤ t1 then
           some ⟨t1, o + d * t1, (o + d * t1 - s.center).normalize sq, s.material⟩
         else none) :=
  sphere_intersect_root_select sq s o d

/-- C6, the claim's own formula at a concrete input: for the plane at z = 5
facing -z and the +z ray from the origin, the claim's
`t = (origin_to_plane)·normal / denom` is -5, so the claim predicts no hit,
while the code reports the hit at distance 5. -/
theorem c6_counterexample_sign :
    Plane.intersectClaimC6 planeZ5 ⟨0, 0, 0⟩ ⟨0, 0, 1⟩ = none ∧
    Plane.intersect planeZ5 ⟨0, 0, 0⟩ ⟨0, 0, 1⟩ =
      some ⟨5, ⟨0, 0, 5⟩, ⟨0, 0, -1⟩, mWhite⟩ := by
  with_unfolding_all decide

/-- C6 amended: `Plane::intersect` reports no hit when `denom ≤ 1e-6`, and
otherwise a hit at `t = -((origin_to_plane)·normal) / denom` — note the
negation, absent from the claim — exactly when t ≥ 0, with the stored normal
returned unmodified. -/
theorem c6_plane_formula (p : Plane α) (o d : Vec3 α) :
    Plane.intersect p o d =
      (let denom := -(p.normal.dot d)
       if denom ≤ 1 / 1000000 then none
       else
         let t := -((p.origin - o).dot p.normal) / denom
         if 0 ≤ t then some ⟨t, o + d * t, p.normal, p.material⟩ else none) := by
  rw [Plane.intersect]
  dsimp only
  rcases le_or_lt (-(p.normal.dot d)) (1 / 1000000) with h | h
  · rw [if_neg (not_lt.mpr h), if_pos h]
  · rw [if_pos h, if_neg (not_le.mpr h)]

theorem traceD_depth_le (sq : α → α) (s : Scene α) :
    ∀ (n : Nat) (o d : Vec3 α), (Scene.traceD sq s o d n).2 ≤ n + 1 := by
  intro n
  induction n with
  | zero =>
    intro o d
    rw [Scene.traceD]
    cases s.intersect sq o d <;> simp
  | succ n ih =>
    intro o d
    rw [Scene.traceD]
    cases h : s.intersect sq o d with
    | none => simp
    | some i =>
      dsimp only
      split_ifs with hρ
      · have hsub := ih (i.position + (d.reflect i.normal) * ((1 : α) / 10000))
          (d.reflect i.normal)
        omega
      · omega

theorem traceD_depth_zero (sq : α → α) (s : Scene α) (o d : Vec3 α) :
    (Scene.traceD sq s o d 0).2 = 1 := by
  rw [Scene.traceD]
  cases s.intersect sq o d <;> simp

theorem traceD_fst (sq : α → α) (s : Scene α) :
    ∀ (n : Nat) (o d : Vec3 α),
      (Scene.traceD sq s o d n).1 = Scene.trace sq s o d n := by
  intro n
  induction n with
  | zero =>
    intro o d
    rw [Scene.traceD, Scene.trace]
    cases s.intersect sq o d <;> simp
  | succ n ih =>
    intro o d
    rw [Scene.traceD, Scene.trace]
    cases h : s.intersect sq o d with
    | none => simp
    | some i =>
      dsimp only
      split_ifs with hρ
      · rw [ih]
        cases Scene.trace sq s (i.position + (d.reflect i.normal) * ((1 : α) / 10000))
          (d.reflect i.normal) n <;> simp
      · simp

/-- C1: the recursion of `Scene::trace` is bounded by the budget: the call
depth of a trace at budget n is at most n + 1; at budget 0 no recursive call
is made (depth exactly 1); `max_recursion` is 10, so a default trace reaches
depth at most 11; and the instrumented `traceD` computes exactly the color
`Scene.trace` computes. -/
theorem c1_trace_terminates_depth_bounded (sq : α → α) (s : Scene α) (o d : Vec3 α) :
    (∀ n, (Scene.traceD sq s o d n).2 ≤ n + 1) ∧
    (Scene.traceD sq s o d 0).2 = 1 ∧
    Scene.max_recursion = 10 ∧
    (Scene.traceD sq s o d Scene.max_recursion).2 ≤ 11 ∧
    (∀ n, (Scene.traceD sq s o d n).1 = Scene.trace sq s o d n) := by
  refine ⟨fun n => traceD_depth_le sq s n o d, traceD_depth_zero sq s o d, rfl,
    traceD_depth_le sq s Scene.max_recursion o d, fun n => traceD_fst sq s n o d⟩

/-- C3 amended: when the nearest hit's material has any positive reflectivity
and the budget is positive, the color returned is the shaded albedo plus the
full recursively traced reflection color (or black on a recursive miss) — the
magnitude of the reflectivity never scales the reflection contribution. -/
theorem c3_reflection_added_unscaled (sq : α → α) (s : Scene α) (o d : Vec3 α)
    (n : Nat) (i : Intersection α) (hI : s.intersect sq o d = some i)
    (hρ : 0 < i.material.reflectivity) :
    Scene.trace sq s o d (n + 1) =
      some (s.shadedAlbedo sq i +
        (Scene.trace sq s (i.position + (d.reflect i.normal) * ((1 : α) / 10000))
          (d.reflect i.normal) n).getD 0) := by
  rw [Scene.trace, hI]
  dsimp only
  rw [if_pos hρ]
  cases Scene.trace sq s (i.position + (d.reflect i.normal) * ((1 : α) / 10000))
    (d.reflect i.normal) n <;> simp

/-- C3, the claim refuted at a concrete input: two scenes identical except for
the mirror's reflectivity (1/2 versus 1) produce the same traced color for the
same ray, although the recursively traced reflection color (1/10, 0, 0) is not
black — the reflectivity's magnitude does not change the blend. -/
theorem c3_counterexample_equal_blend :
    Scene.trace ratSqrt (mirrorScene (1 / 2)) ⟨0, 0, 0⟩ ⟨0, 0, 1⟩ 10 =
      Scene.trace ratSqrt (mirrorScene 1) ⟨0, 0, 0⟩ ⟨0, 0, 1⟩ 10 ∧
    Scene.trace ratSqrt (mirrorScene (1 / 2)) ⟨0, 0, 0⟩ ⟨0, 0, 1⟩ 10 =
      some ⟨1 / 10, 0, 0⟩ ∧
    Scene.trace ratSqrt (mirrorScene (1 / 2)) ⟨0, 0, (99999 : ℚ) / 10000⟩
      ⟨0, 0, -1⟩ 9 = some ⟨1 / 10, 0, 0⟩ := by
  refine ⟨?_, ?_, ?_⟩ <;> with_unfolding_all decide

/-- C3 amended, exercised at a concrete input: the mirror scene with
reflectivity 1/2 satisfies the hypotheses of `c3_reflection_added_unscaled`
and the resulting color is the full reflection color on black albedo. -/
theorem c3_reflection_added_unscaled_witness :
    Scene.intersect ratSqrt (mirrorScene (1 / 2)) ⟨0, 0, 0⟩ ⟨0, 0, 1⟩ =
      some mirrorHit ∧
    0 < mirrorHit.material.reflectivity ∧
    Scene.trace ratSqrt (mirrorScene (1 / 2)) ⟨0, 0, 0⟩ ⟨0, 0, 1⟩ (9 + 1) =
      some ⟨1 / 10, 0, 0⟩ := by
  refine ⟨by with_unfolding_all decide, by with_unfolding_all decide, ?_⟩
  exact (c3_reflection_added_unscaled ratSqrt (mirrorScene (1 / 2)) ⟨0, 0, 0⟩
    ⟨0, 0, 1⟩ 9 mirrorHit (by with_unfolding_all decide)
    (by with_unfolding_all decide)).trans (by with_unfolding_all decide)

theorem foldl_sel_le (l : List (Intersection α)) (b : Intersection α) :
    (l.foldl selectNearer b).distance ≤ b.distance := by
  induction l generalizing b with
  | nil => exact le_refl _
  | cons x xs ih =>
    rw [List.foldl_cons]
    refine (ih (selectNearer b x)).trans ?_
    rcases lt_or_le x.distance b.distance with hx | hx
    · rw [show selectNearer b x = x from if_pos hx]; exact hx.le
    · rw [show selectNearer b x = b from if_neg (not_lt.mpr hx)]

theorem foldl_sel_min (l : List (Intersection α)) (b : Intersection α) :
    ∀ j ∈ l, (l.foldl selectNearer b).distance ≤ j.distance := by
  induction l generalizing b with
  | nil => intro j hj; cases hj
  | cons x xs ih =>
    intro j hj
    rw [List.foldl_cons]
    rcases List.mem_cons.mp hj with rfl | hj'
    · refine (foldl_sel_le xs (selectNearer b j)).trans ?_
      rcases lt_or_le j.distance b.distance with hx | hx
      · rw [show selectNearer b j = j from if_pos hx]
      · rw [show selectNearer b j = b from if_neg (not_lt.mpr hx)]; exact hx
    · exact ih (selectNearer b x) j hj'

theorem foldl_sel_first (l : List (Intersection α)) (b : Intersection α) :
    l.foldl selectNearer b = b ∨
    ∃ l₁ l₂, l = l₁ ++ (l.foldl selectNearer b) :: l₂ ∧
      (l.foldl selectNearer b).distance < b.distance ∧
      ∀ j ∈ l₁, (l.foldl selectNearer b).distance < j.distance := by
  induction l generalizing b with
  | nil => exact Or.inl rfl
  | cons x xs ih =>
    rw [List.foldl_cons]
    by_cases hx : x.distance < b.distance
    · rw [show selectNearer b x = x from if_pos hx]
      rcases ih x with h | ⟨l₁, l₂, heq, hlt, hall⟩
      · right
        refine ⟨[], xs, ?_, ?_, ?_⟩
        · rw [h]; rfl
        · rw [h]; exact hx
        · intro j hj; cases hj
      · right
        refine ⟨x :: l₁, l₂, ?_, hlt.trans hx, ?_⟩
        · rw [List.cons_append, ← heq]
        · intro j hj
          rcases List.mem_cons.mp hj with rfl | hj'
          · exact hlt
          · exact hall j hj'
    · rw [show selectNearer b x = b from if_neg hx]
      rcases ih b with h | ⟨l₁, l₂, heq, hlt, hall⟩
      · exact Or.inl h
      · right
        refine ⟨x :: l₁, l₂, ?_, hlt, ?_⟩
        · rw [List.cons_append, ← heq]
        · intro j hj
          rcases List.mem_cons.mp hj with rfl | hj'
          · exact hlt.trans_le (not_lt.mp hx)
          · exact hall j hj'

theorem foldl_obj_eq_hits (sq : α → α) (o d : Vec3 α) :
    ∀ (l : List (Object α)) (b : Intersection α),
      l.foldl (fun final_hit obj =>
        match Object.intersect sq obj o d with
        | some hit => if hit.distance < final_hit.distance then hit else final_hit
        | none => final_hit) b =
      (l.filterMap (fun obj => Object.intersect sq obj o d)).foldl selectNearer b := by
  intro l
  induction l with
  | nil => intro b; rfl
  | cons x xs ih =>
    intro b
    rw [List.foldl_cons, List.filterMap_cons]
    cases h : Object.intersect sq x o d with
    | none => simpa [h] using ih b
    | some hit => simpa [h, selectNearer] using ih (selectNearer b hit)

theorem scene_intersect_as_fold (sq : α → α) (s : Scene α) (o d : Vec3 α) :
    Scene.intersect sq s o d =
      (let final := (Scene.hits sq s o d).foldl selectNearer defaultHit
       if final.distance ≠ fltMax then some final else none) := by
  rw [Scene.intersect, Scene.hits, foldl_obj_eq_hits]

/-- C4 amended: `Scene::intersect` returns none exactly when no shape reports
a hit of distance strictly below the FLT_MAX sentinel (the claim's
"no shape reports a hit" fails for a hit at distance exactly FLT_MAX); and a
returned hit is the first-encountered hit of globally minimal distance — the
strict less-than update keeps the earlier shape on ties. -/
theorem c4_nearest_hit_first_min (sq : α → α) (s : Scene α) (o d : Vec3 α) :
    (Scene.intersect sq s o d = none ↔
      ∀ j ∈ Scene.hits sq s o d, ¬ j.distance < fltMax) ∧
    (∀ i, Scene.intersect sq s o d = some i →
      i.distance < fltMax ∧
      (∀ j ∈ Scene.hits sq s o d, i.distance ≤ j.distance) ∧
      ∃ l₁ l₂, Scene.hits sq s o d = l₁ ++ i :: l₂ ∧
        ∀ j ∈ l₁, i.distance < j.distance) := by
  rw [scene_intersect_as_fold]
  dsimp only
  set hs := Scene.hits sq s o d with hhs
  set r := hs.foldl selectNearer defaultHit with hr
  have hb : (defaultHit (α := α)).distance = fltMax := rfl
  constructor
  · by_cases hne : r.distance ≠ fltMax
    · rw [if_pos hne]
      constructor
      · intro h; exact absurd h (by simp)
      · intro hall
        exfalso
        rcases foldl_sel_first hs defaultHit with h | ⟨l₁, l₂, heq, hlt, _⟩
        · exact hne (by rw [← hr] at h; rw [h, hb])
        · have hmem : r ∈ hs := by
            rw [heq]; exact List.mem_append_right _ (List.mem_cons_self _ _)
          exact hall r hmem (by rw [← hb]; exact hlt)
    · rw [if_neg hne]
      push_neg at hne
      constructor
      · intro _ j hj hjlt
        have hle := foldl_sel_min hs defaultHit j hj
        rw [← hr, hne] at hle
        exact absurd (lt_of_le_of_lt hle hjlt) (lt_irrefl _)
      · intro _; rfl
  · intro i hi
    by_cases hne : r.distance ≠ fltMax
    · rw [if_pos hne] at hi
      have hri : r = i := by injection hi
      subst hri
      have h1 : r.distance < fltMax := by
        have := foldl_sel_le hs defaultHit
        rw [← hr, hb] at this
        exact lt_of_le_of_ne this hne
      refine ⟨h1, fun j hj => foldl_sel_min hs defaultHit j hj, ?_⟩
      rcases foldl_sel_first hs defaultHit with h | ⟨l₁, l₂, heq, _, hall⟩
      · exact absurd (by rw [← hr] at h; rw [h, hb]) hne
      · exact ⟨l₁, l₂, heq, hall⟩
    · rw [if_neg hne] at hi
      cases hi

/-- C4, the claim refuted at a concrete input: for the plane whose
intersection distance is exactly FLT_MAX, the shape reports a hit yet
`Scene::intersect` returns none — "none iff no shape reports a hit" fails. -/
theorem c4_counterexample_sentinel_hit :
    Scene.intersect ratSqrt sentinelScene ⟨0, 0, 0⟩ ⟨0, 0, 1⟩ = none ∧
    Scene.hits ratSqrt sentinelScene ⟨0, 0, 0⟩ ⟨0, 0, 1⟩ ≠ [] := by
  have hfm : (0 : ℚ) ≤ fltMax := by rw [fltMax]; norm_num
  constructor
  · rw [Scene.intersect]
    simp only [sentinelScene, List.foldl_cons, List.foldl_nil, Object.intersect,
      Plane.intersect, Vec3.dot]
    norm_num [defaultHit, hfm]
  · rw [Scene.hits]
    simp only [sentinelScene, List.filterMap_cons, Object.intersect,
      Plane.intersect, Vec3.dot]
    norm_num [hfm]

/-- C4 amended, exercised at a concrete input: the two-plane scene reports the
nearer plane's hit, which is first among the hits and of minimal distance. -/
theorem c4_nearest_hit_first_min_witness :
    Scene.intersect ratSqrt twoPlaneScene ⟨0, 0, 0⟩ ⟨0, 0, 1⟩ = some nearHit ∧
    (nearHit.distance < fltMax ∧
     (∀ j ∈ Scene.hits ratSqrt twoPlaneScene ⟨0, 0, 0⟩ ⟨0, 0, 1⟩,
        nearHit.distance ≤ j.distance) ∧
     ∃ l₁ l₂, Scene.hits ratSqrt twoPlaneScene ⟨0, 0, 0⟩ ⟨0, 0, 1⟩ =
        l₁ ++ nearHit :: l₂ ∧ ∀ j ∈ l₁, nearHit.distance < j.distance) := by
  have h : Scene.intersect ratSqrt twoPlaneScene ⟨0, 0, 0⟩ ⟨0, 0, 1⟩ =
      some nearHit := by with_unfolding_all decide
  exact ⟨h, (c4_nearest_hit_first_min ratSqrt twoPlaneScene ⟨0, 0, 0⟩
    ⟨0, 0, 1⟩).2 nearHit h⟩

theorem lighting_foldl_eq_sum (sq : α → α) (s : Scene α) (pos : Vec3 α) :
    ∀ (ls : List (PointLight α)) (b : Color α),
      ls.foldl
        (fun (lighting : Color α) light =>
          let light_delta := pos - light.position
          let distance_to_light := light_delta.length sq
          let attenuated : Color α := light.color * (light.power / distance_to_light)
          match s.intersect sq light.position (light_delta.normalize sq) with
          | some hit =>
            if hit.distance < distance_to_light - 1 / 1000 then lighting
            else lighting + attenuated
          | none => lighting + attenuated) b
      = b + (ls.map (Scene.lightTerm sq s pos)).sum := by
  intro ls
  induction ls with
  | nil => intro b; simp
  | cons x xs ih =>
    intro b
    rw [List.foldl_cons, List.map_cons, List.sum_cons, ih]
    have hstep :
        (let light_delta := pos - x.position
         let distance_to_light := light_delta.length sq
         let attenuated : Color α := x.color * (x.power / distance_to_light)
         match s.intersect sq x.position (light_delta.normalize sq) with
         | some hit =>
           if hit.distance < distance_to_light - 1 / 1000 then b
           else b + attenuated
         | none => b + attenuated)
        = b + Scene.lightTerm sq s pos x := by
      dsimp only
      rw [Scene.lightTerm, Scene.lightOccluded]
      cases h : s.intersect sq x.position ((pos - x.position).normalize sq) with
      | none => simp
      | some hit =>
        simp only [decide_eq_true_eq]
        by_cases hlt : hit.distance < (pos - x.position).length sq - 1 / 1000
        · rw [if_pos hlt, if_pos hlt, add_zero]
        · rw [if_neg hlt, if_neg hlt]
    rw [hstep, add_assoc]

theorem lighting_eq_ambient_add_terms (sq : α → α) (s : Scene α) (pos : Vec3 α) :
    Scene.lighting sq s pos =
      (⟨1 / 10, 1 / 10, 1 / 10⟩ : Color α) +
        (s.lights.map (Scene.lightTerm sq s pos)).sum := by
  rw [Scene.lighting, lighting_foldl_eq_sum]

/-- C7: the lighting accumulated at a point is the ambient 0.1 plus, for each
light, either zero (when the shadow ray cast from the light toward the point
finds a nearer hit, strictly closer than the light distance minus 1e-3) or
exactly `light.color * (light.power / distance)` — inverse-linear falloff; and
an occluded light contributes nothing: deleting it from the scene leaves the
lighting unchanged. -/
theorem c7_lighting_shadow_and_falloff (sq : α → α) (s : Scene α) (pos : Vec3 α) :
    (Scene.lighting sq s pos =
      (⟨1 / 10, 1 / 10, 1 / 10⟩ : Color α) +
        (s.lights.map (fun light =>
          if Scene.lightOccluded sq s pos light then 0
          else light.color *
            (light.power / ((pos - light.position).length sq)))).sum) ∧
    (∀ light rest,
      Scene.lightOccluded sq (⟨s.objects, light :: rest⟩ : Scene α) pos light = true →
      Scene.lighting sq ⟨s.objects, light :: rest⟩ pos =
        Scene.lighting sq ⟨s.objects, rest⟩ pos) := by
  constructor
  · exact lighting_eq_ambient_add_terms sq s pos
  · intro light rest hocc
    rw [lighting_eq_ambient_add_terms, lighting_eq_ambient_add_terms]
    simp only [List.map_cons, List.sum_cons]
    have hterm0 :
        Scene.lightTerm sq (⟨s.objects, light :: rest⟩ : Scene α) pos light = 0 := by
      rw [Scene.lightTerm, if_pos hocc]
    rw [hterm0, zero_add]
    rfl

theorem object_intersect_material (sq : α → α) (obj : Object α) (o d : Vec3 α)
    (i : Intersection α) (h : Object.intersect sq obj o d = some i) :
    i.material = obj.material := by
  cases obj with
  | plane p =>
    rw [Object.intersect, Plane.intersect] at h
    dsimp only at h
    split_ifs at h
    · injection h with h2; rw [← h2]; rfl
  | sphere sp =>
    rw [Object.intersect, Sphere.intersect] at h
    dsimp only at h
    split_ifs at h <;> first
      | (injection h with h2; rw [← h2]; rfl)

theorem scene_intersect_mem_hits (sq : α → α) (s : Scene α) (o d : Vec3 α)
    (i : Intersection α) (h : Scene.intersect sq s o d = some i) :
    i ∈ Scene.hits sq s o d := by
  rw [scene_intersect_as_fold] at h
  dsimp only at h
  by_cases hne :
      ((Scene.hits sq s o d).foldl selectNearer defaultHit).distance ≠ fltMax
  · rw [if_pos hne] at h
    injection h with h2
    rw [← h2]
    rcases foldl_sel_first (Scene.hits sq s o d) defaultHit with hfold |
      ⟨l₁, l₂, heq, _, _⟩
    · exact absurd (by rw [hfold]; rfl) hne
    · have hmem : (Scene.hits sq s o d).foldl selectNearer defaultHit ∈
          l₁ ++ ((Scene.hits sq s o d).foldl selectNearer defaultHit) :: l₂ :=
        List.mem_append_right _ (List.mem_cons_self _ _)
      rw [← heq] at hmem
      exact hmem
  · rw [if_neg hne] at h
    cases h

theorem scene_intersect_material_of_scene (sq : α → α) (s : Scene α)
    (o d : Vec3 α) (i : Intersection α) (h : Scene.intersect sq s o d = some i) :
    ∃ obj ∈ s.objects, i.material = obj.material := by
  have hmem := scene_intersect_mem_hits sq s o d i h
  rw [Scene.hits] at hmem
  rcases List.mem_filterMap.mp hmem with ⟨obj, hobj, hint⟩
  exact ⟨obj, hobj, object_intersect_material sq obj o d i hint⟩

theorem brightness_nonpos_nonneg_zero (c : Color α) (h0 : ¬ c.brightness > 0)
    (hr : 0 ≤ c.r) (hg : 0 ≤ c.g) (hb : 0 ≤ c.b) :
    c = (⟨0, 0, 0⟩ : Color α) := by
  rw [Color.brightness] at h0
  push_neg at h0
  rw [Color.ext_rgb]
  refine ⟨?_, ?_, ?_⟩ <;> dsimp only <;> linarith

theorem shadedAlbedo_eq_always (sq : α → α) (s : Scene α) (i : Intersection α)
    (hr : 0 ≤ i.material.albedo.r) (hg : 0 ≤ i.material.albedo.g)
    (hb : 0 ≤ i.material.albedo.b) :
    s.shadedAlbedo sq i = i.material.albedo * s.lighting sq i.position := by
  rw [Scene.shadedAlbedo]
  split_ifs with h0
  · rfl
  · rw [brightness_nonpos_nonneg_zero i.material.albedo h0 hr hg hb]
    rw [Color.ext_rgb]
    refine ⟨?_, ?_, ?_⟩ <;> simp

/-- C8 amended: the brightness test is invisible exactly for scenes whose
materials have non-negative albedo channels (then brightness ≤ 0 forces a
pure-black albedo and black times lighting is black): for every such scene
`Scene.trace` equals the variant that multiplies the albedo by the lighting
accumulator unconditionally.  (For a negative-channel albedo the two differ:
see the counterexample.) -/
theorem c8_skip_invisible_for_nonneg_albedo (sq : α → α) (s : Scene α)
    (hnn : ∀ obj ∈ s.objects, 0 ≤ (Object.material obj).albedo.r ∧
      0 ≤ (Object.material obj).albedo.g ∧ 0 ≤ (Object.material obj).albedo.b) :
    ∀ (n : Nat) (o d : Vec3 α),
      Scene.trace sq s o d n = Scene.traceAlwaysLight sq s o d n := by
  intro n
  induction n with
  | zero =>
    intro o d
    rw [Scene.trace, Scene.traceAlwaysLight]
    cases h : s.intersect sq o d with
    | none => rfl
    | some i =>
      rcases scene_intersect_material_of_scene sq s o d i h with ⟨obj, hobj, hmat⟩
      rcases hnn obj hobj with ⟨hr, hg, hb⟩
      rw [← hmat] at hr hg hb
      dsimp only
      rw [shadedAlbedo_eq_always sq s i hr hg hb]
  | succ n ih =>
    intro o d
    rw [Scene.trace, Scene.traceAlwaysLight]
    cases h : s.intersect sq o d with
    | none => rfl
    | some i =>
      rcases scene_intersect_material_of_scene sq s o d i h with ⟨obj, hobj, hmat⟩
      rcases hnn obj hobj with ⟨hr, hg, hb⟩
      rw [← hmat] at hr hg hb
      dsimp only
      rw [shadedAlbedo_eq_always sq s i hr hg hb, ih]

/-- C8, the claim refuted at a concrete input: for a material with albedo
(0, 0, -1) — negative channel, non-positive brightness — skipping the
lighting multiplication changes the traced color, so the claim's "no visible
effect including for negative channel values" is false. -/
theorem c8_counterexample_negative_albedo :
    Scene.trace ratSqrt negAlbedoScene ⟨0, 0, 0⟩ ⟨0, 0, 1⟩ 10 ≠
      Scene.traceAlwaysLight ratSqrt negAlbedoScene ⟨0, 0, 0⟩ ⟨0, 0, 1⟩ 10 := by
  with_unfolding_all decide

/-- C8 amended, exercised at a concrete input: on the all-non-negative scene
the two tracers agree. -/
theorem c8_skip_invisible_witness :
    (∀ obj ∈ nonnegScene.objects, 0 ≤ (Object.material obj).albedo.r ∧
      0 ≤ (Object.material obj).albedo.g ∧ 0 ≤ (Object.material obj).albedo.b) ∧
    Scene.trace ratSqrt nonnegScene ⟨0, 0, 0⟩ ⟨0, 0, 1⟩ 10 =
      Scene.traceAlwaysLight ratSqrt nonnegScene ⟨0, 0, 0⟩ ⟨0, 0, 1⟩ 10 := by
  refine ⟨by with_unfolding_all decide, ?_⟩
  exact c8_skip_invisible_for_nonneg_albedo ratSqrt nonnegScene
    (by with_unfolding_all decide) 10 ⟨0, 0, 0⟩ ⟨0, 0, 1⟩

/-- C7, exercised at a concrete input: the plane at z = 5 stands between the
light at the origin and the point (0,0,10); the shadow test reports occlusion
and deleting the light leaves the lighting unchanged. -/
theorem c7_lighting_shadow_witness :
    Scene.lightOccluded ratSqrt occludedScene ⟨0, 0, 10⟩ blockedLight = true ∧
    Scene.lighting ratSqrt occludedScene ⟨0, 0, 10⟩ =
      Scene.lighting ratSqrt occluderScene ⟨0, 0, 10⟩ := by
  have hocc : Scene.lightOccluded ratSqrt occludedScene ⟨0, 0, 10⟩
      blockedLight = true := by with_unfolding_all decide
  refine ⟨hocc, ?_⟩
  exact (c7_lighting_shadow_and_falloff ratSqrt occluderScene ⟨0, 0, 10⟩).2
    blockedLight [] hocc

theorem length2_ray_offset (o d c : Vec3 α) (t : α) :
    (o + d * t - c).length2 =
      (c - o).dot (c - o) - 2 * t * ((c - o).dot d) + t * t * d.length2 := by
  obtain ⟨ox, oy, oz⟩ := o
  obtain ⟨dx, dy, dz⟩ := d
  obtain ⟨cx, cy, cz⟩ := c
  simp only [Vec3.length2, Vec3.dot, Vec3.add_x, Vec3.add_y, Vec3.add_z,
    Vec3.sub_x, Vec3.sub_y, Vec3.sub_z, Vec3.smul_x, Vec3.smul_y, Vec3.smul_z]
  ring

theorem hit_on_sphere_dist2 (o d c : Vec3 α) (r thc t : α) (hd : d.length2 = 1)
    (hthc : thc * thc =
      r * r - ((c - o).dot (c - o) - (c - o).dot d * ((c - o).dot d)))
    (ht : t = (c - o).dot d - thc ∨ t = (c - o).dot d + thc) :
    (o + d * t - c).length2 = r * r := by
  rw [length2_ray_offset, hd]
  rcases ht with rfl | rfl <;> linear_combination hthc

theorem length_normalize_of_length2_pos (v : Vec3 ℝ) (h : 0 < v.length2) :
    (v.normalize Real.sqrt).length Real.sqrt = 1 := by
  have hpos : 0 < Real.sqrt v.length2 := Real.sqrt_pos.mpr h
  rw [Vec3.normalize]
  rw [if_neg (show ¬ v.length Real.sqrt = 0 from ne_of_gt hpos)]
  rw [Vec3.length]
  have h2 : (v * (1 / v.length Real.sqrt)).length2 =
      (1 / Real.sqrt v.length2) * (1 / Real.sqrt v.length2) * v.length2 := by
    simp only [Vec3.length2, Vec3.smul_x, Vec3.smul_y, Vec3.smul_z, Vec3.length]
    ring
  rw [h2, div_mul_div_comm, one_mul, Real.mul_self_sqrt h.le, one_div,
    inv_mul_cancel₀ (ne_of_gt h)]
  exact Real.sqrt_one

theorem c9_plane_part (p : Plane ℝ) (o d : Vec3 ℝ) (hn : p.normal.length2 = 1)
    (i : Intersection ℝ) (h : Plane.intersect p o d = some i) :
    Intersection.Good o d i := by
  rw [Plane.intersect] at h
  dsimp only at h
  split_ifs at h with h1 h2
  injection h with h3
  rw [← h3]
  refine ⟨?_, h2, rfl⟩
  show Vec3.length Real.sqrt p.normal = 1
  rw [Vec3.length, hn]
  exact Real.sqrt_one

theorem c9_sphere_part (sp : Sphere ℝ) (o d : Vec3 ℝ) (hd : d.length2 = 1)
    (hr : 0 < sp.radius) (i : Intersection ℝ)
    (h : Sphere.intersect Real.sqrt sp o d = some i) :
    Intersection.Good o d i := by
  rw [sphere_intersect_root_select] at h
  dsimp only at h
  split_ifs at h with h1 h2 h3
  case _ =>
    -- t = min root, h2 : 0 ≤ min …
    injection h with h4
    rw [← h4]
    have hthc : Real.sqrt (sp.radius * sp.radius -
          ((sp.center - o).dot (sp.center - o) -
            (sp.center - o).dot d * ((sp.center - o).dot d))) *
        Real.sqrt (sp.radius * sp.radius -
          ((sp.center - o).dot (sp.center - o) -
            (sp.center - o).dot d * ((sp.center - o).dot d))) =
        sp.radius * sp.radius -
          ((sp.center - o).dot (sp.center - o) -
            (sp.center - o).dot d * ((sp.center - o).dot d)) :=
      Real.mul_self_sqrt (by linarith [not_lt.mp h1])
    have hsphere := hit_on_sphere_dist2 o d sp.center sp.radius _ _ hd hthc
      (min_choice _ _)
    refine ⟨?_, h2, rfl⟩
    show Vec3.length Real.sqrt (Vec3.normalize Real.sqrt _) = 1
    exact length_normalize_of_length2_pos _
      (by rw [hsphere]; exact mul_pos hr hr)
  case _ =>
    -- t = max root, h3 : 0 ≤ max …
    injection h with h4
    rw [← h4]
    have hthc : Real.sqrt (sp.radius * sp.radius -
          ((sp.center - o).dot (sp.center - o) -
            (sp.center - o).dot d * ((sp.center - o).dot d))) *
        Real.sqrt (sp.radius * sp.radius -
          ((sp.center - o).dot (sp.center - o) -
            (sp.center - o).dot d * ((sp.center - o).dot d))) =
        sp.radius * sp.radius -
          ((sp.center - o).dot (sp.center - o) -
            (sp.center - o).dot d * ((sp.center - o).dot d)) :=
      Real.mul_self_sqrt (by linarith [not_lt.mp h1])
    have hsphere := hit_on_sphere_dist2 o d sp.center sp.radius _ _ hd hthc
      (max_choice _ _)
    refine ⟨?_, h3, rfl⟩
    show Vec3.length Real.sqrt (Vec3.normalize Real.sqrt _) = 1
    exact length_normalize_of_length2_pos _
      (by rw [hsphere]; exact mul_pos hr hr)

/-- C9: every intersection returned by `Plane::intersect` (unit stored
normal), `Sphere::intersect` (unit ray direction, positive radius) or
`Scene::intersect` (well-formed shapes) carries a unit-length normal, a
non-negative distance — never a hit behind the origin — and a position equal
to `ray_origin + ray_direction * distance`. -/
theorem c9_intersection_invariants :
    (∀ (p : Plane ℝ) (o d : Vec3 ℝ), p.normal.length2 = 1 →
      ∀ i, Plane.intersect p o d = some i → Intersection.Good o d i) ∧
    (∀ (sp : Sphere ℝ) (o d : Vec3 ℝ), d.length2 = 1 → 0 < sp.radius →
      ∀ i, Sphere.intersect Real.sqrt sp o d = some i →
        Intersection.Good o d i) ∧
    (∀ (s : Scene ℝ) (o d : Vec3 ℝ), d.length2 = 1 →
      (∀ obj ∈ s.objects, Object.WellFormed obj) →
      ∀ i, Scene.intersect Real.sqrt s o d = some i →
        Intersection.Good o d i) := by
  refine ⟨fun p o d hn i h => c9_plane_part p o d hn i h,
    fun sp o d hd hr i h => c9_sphere_part sp o d hd hr i h, ?_⟩
  intro s o d hd hwf i h
  have hmem := scene_intersect_mem_hits Real.sqrt s o d i h
  rw [Scene.hits] at hmem
  rcases List.mem_filterMap.mp hmem with ⟨obj, hobj, hint⟩
  cases obj with
  | plane p => exact c9_plane_part p o d (hwf _ hobj) i hint
  | sphere sp => exact c9_sphere_part sp o d hd (hwf _ hobj) i hint

/-- C9, exercised at a concrete input: the unit sphere at (0,0,5) hit by the
+z unit ray from the origin satisfies the hypotheses, reports the hit at
distance 4, and that hit carries the invariants. -/
theorem c9_intersection_invariants_witness :
    ((⟨0, 0, 1⟩ : Vec3 ℝ).length2 = 1) ∧ (0 < unitSphereR.radius) ∧
    Sphere.intersect Real.sqrt unitSphereR ⟨0, 0, 0⟩ ⟨0, 0, 1⟩ =
      some ⟨4, ⟨0, 0, 4⟩, ⟨0, 0, -1⟩, mWhiteR⟩ ∧
    Intersection.Good ⟨0, 0, 0⟩ ⟨0, 0, 1⟩ ⟨4, ⟨0, 0, 4⟩, ⟨0, 0, -1⟩, mWhiteR⟩ := by
  have hd : ((⟨0, 0, 1⟩ : Vec3 ℝ)).length2 = 1 := by
    rw [Vec3.length2]; norm_num
  have hr : (0 : ℝ) < unitSphereR.radius := by rw [unitSphereR]; norm_num
  have hI : Sphere.intersect Real.sqrt unitSphereR ⟨0, 0, 0⟩ ⟨0, 0, 1⟩ =
      some ⟨4, ⟨0, 0, 4⟩, ⟨0, 0, -1⟩, mWhiteR⟩ := by
    rw [Sphere.intersect, unitSphereR]
    norm_num [Vec3.dot, Vec3.sub_x, Vec3.sub_y, Vec3.sub_z, Real.sqrt_one,
      Vec3.normalize, Vec3.length, Vec3.length2, Vec3.add_x, Vec3.add_y,
      Vec3.add_z, Vec3.smul_x, Vec3.smul_y, Vec3.smul_z,
      Intersection.mk.injEq, Vec3.ext_xyz, mWhiteR]
  exact ⟨hd, hr, hI, (c9_intersection_invariants).2.1 unitSphereR ⟨0, 0, 0⟩
    ⟨0, 0, 1⟩ hd hr _ hI⟩

end Raytracer
